import Mathlib

/-!
# Verification of `weightbot.py`

A shallow embedding of the weight-tracking chat bot in `src/weightbot.py`,
together with theorems settling the specified behavioural claims.

Modelling conventions:
* Python `float` values that occur in the program are modelled as `ℚ`
  (all arithmetic in the program — means, differences, the goal formula —
  is exact on the inputs considered; NaN/inf parses of `float(text)` are
  modelled as a failed parse, which is behaviourally equivalent here since
  such values never satisfy the strict range check `50 < w < 150`).
* The CSV store is a list of rows, each row a list of field strings;
  `csv.writer`/`pandas.read_csv` quoting is transparent at field level.
* Timestamps are rationals counting days (fractional allowed); the pandas
  `resample(size, kind="period")` buckets are modelled as the periods
  `[k*size, (k+1)*size)`, i.e. grouping by `⌊t / size⌋`.
* Async effects: an `await e` statement performs the effect of `e`;
  calling a coroutine-valued method as a bare statement (no `await`)
  creates a coroutine that is never scheduled, hence performs no effect.
-/

/-- A CSV row, as the list of its field strings. -/
abbrev Row := List String

/-- The header row written on first run (`main`, line 202). -/
def headerRow : Row := ["timestamp", "weight"]

/-- `store_weight` (lines 185–191): append one row
`[current timestamp, raw weight text]` to the CSV file. -/
def store_weight (now weight : String) (file : List Row) : List Row :=
  file ++ [[now, weight]]

/-- Reading the store back (`pd.read_csv`, lines 110–112): the first row is
consumed as the header, the remaining rows are the data rows, in file order. -/
def readRows (file : List Row) : List Row :=
  file.drop 1

/-- Startup initialisation (`main`, lines 196–202): if the CSV file is absent
(`none`) or empty, (re)create it with just the header row; otherwise leave
it untouched. -/
def initStore (file : Option (List Row)) : List Row :=
  match file with
  | none => [headerRow]
  | some rows => if rows.isEmpty then [headerRow] else rows

/-- One run of the startup initialisation on an existing file. -/
def initStep (rows : List Row) : List Row :=
  initStore (some rows)

/-- `WeightFilter.filter` (lines 57–64): `parsed` is the outcome of
`float(message.text)` (`none` models a `ValueError`); accept iff the parse
succeeded and the value lies strictly between 50 and 150. -/
def weightFilter (parsed : Option ℚ) : Bool :=
  match parsed with
  | some weight => decide (50 < weight) && decide (weight < 150)
  | none => false

/-- Observable effects of the handlers, at the chat-transport boundary. -/
inductive Effect where
  | logError (update : Option String) (err : String)
  | sendText (text : String)
  | sendPhoto
  | chatAction
  | statsReply
deriving DecidableEq

/-- An awaited coroutine performs its effect (`await ...`). -/
def awaited (e : Effect) : List Effect := [e]

/-- A coroutine created without `await` is never scheduled: no effect. -/
def unawaited (_ : Effect) : List Effect := []

/-- `bot_weight` (lines 83–92): store the raw message text with the current
timestamp, confirm, and trigger the statistics reply. Returns the new file
contents and the performed effects. -/
def bot_weight (now text : String) (file : List Row) : List Row × List Effect :=
  (store_weight now text file,
    awaited .chatAction
      ++ awaited (.sendText (text ++ "kg successfully stored!"))
      ++ awaited .statsReply)

/-- The `MessageHandler(WeightFilter(), bot_weight)` dispatch (line 207):
`bot_weight` runs only when the filter accepts the message text; otherwise
the message is not matched, the store is untouched and no effect happens. -/
def handleMessage (parse : String → Option ℚ) (text now : String)
    (file : List Row) : List Row × List Effect :=
  if weightFilter (parse text) then bot_weight now text file else (file, [])

/-- `bot_error` (lines 76–80): log the update and the error; line 80 calls
`update.message.reply_text(...)` as a bare statement inside an `async def`,
so the reply coroutine is created but never awaited — it performs nothing. -/
def bot_error (update : Option String) (err : String) : List Effect :=
  [Effect.logError update err]
    ++ match update with
       | some _ => unawaited (.sendText "[some error occurred; check the log]")
       | none => []

/-- Whether the long-running process is still alive. -/
inductive ProcState where
  | running
  | crashed
deriving DecidableEq

/-- Top-level dispatch (`run_polling` with `add_error_handler(bot_error)`,
line 208): a handler that raises is caught, the registered error handler runs
with the triggering update, and the process keeps polling. -/
def processUpdate (update : Option String)
    (result : Except String (List Effect)) : List Effect × ProcState :=
  match result with
  | .ok effs => (effs, .running)
  | .error err => (bot_error update err, .running)

/-! ## The statistics flow (`bot_stats`, lines 97–182) -/

/-- One parsed reading: timestamp (in days, fractional) and weight. -/
structure Reading where
  time : ℚ
  weight : ℚ
deriving DecidableEq

/-- Largest timestamp in the data (`data.index.max()`); 0 on empty data. -/
def maxTime : List Reading → ℚ
  | [] => 0
  | r :: rs => rs.foldl (fun a x => max a x.time) r.time

/-- Smallest timestamp in the data (`data.index.min()`); 0 on empty data. -/
def minTime : List Reading → ℚ
  | [] => 0
  | r :: rs => rs.foldl (fun a x => min a x.time) r.time

/-- Smallest weight in the window (`data.weight.idxmin()` row); 0 on empty. -/
def minWeight : List Reading → ℚ
  | [] => 0
  | r :: rs => rs.foldl (fun a x => min a x.weight) r.weight

/-- Largest weight in the window (`data.weight.idxmax()` row); 0 on empty. -/
def maxWeight : List Reading → ℚ
  | [] => 0
  | r :: rs => rs.foldl (fun a x => max a x.weight) r.weight

/-- `data.last(last)` (lines 119–120): keep the trailing part of the series,
the rows whose timestamp is within `d` days of the last row; `none` keeps
everything (the `/stats` path passes no truncation). -/
def windowOf (lastD : Option ℚ) (h : List Reading) : List Reading :=
  match lastD with
  | none => h
  | some d => h.filter fun r => decide (maxTime h - d ≤ r.time)

/-- The resampling period index of a timestamp: period `k` covers
`[k*size, (k+1)*size)` days, as in `resample(size, kind="period")`. -/
def bucketIdx (size t : ℚ) : ℤ := ⌊t / size⌋

/-- Group consecutive readings falling in the same resampling period
(the input is in file order, which is append order, hence time-sorted). -/
def groupBuckets (size : ℚ) : List Reading → List (List Reading)
  | [] => []
  | r :: rs =>
    match groupBuckets size rs with
    | [] => [[r]]
    | [] :: gs => [r] :: gs
    | (s :: g) :: gs =>
      if bucketIdx size r.time = bucketIdx size s.time
      then (r :: s :: g) :: gs
      else [r] :: (s :: g) :: gs

/-- Sum of the weights of a list of readings. -/
def weightSum (l : List Reading) : ℚ :=
  l.foldl (fun a r => a + r.weight) 0

/-- Mean weight of one resampling bucket. -/
def bucketMean (l : List Reading) : ℚ :=
  weightSum l / (l.length : ℚ)

/-- `data.resample(resample, kind="period").mean()` (line 132): the per-period
mean weights, in period order. -/
def bucketMeans (size : ℚ) (w : List Reading) : List ℚ :=
  (groupBuckets size w).map bucketMean

/-- `means.weight[0]` (line 133): the first resampled bucket mean. -/
def weightOrigOf (size : ℚ) (w : List Reading) : ℚ :=
  (bucketMeans size w).headD 0

/-- `means.weight[-1]` (line 134): the last resampled bucket mean. -/
def weightNowOf (size : ℚ) (w : List Reading) : ℚ :=
  (bucketMeans size w).getLastD 0

/-- `weight_loss_period` (lines 136–138): elapsed days between the first and
the last sample of the window. -/
def lossPeriodOf (w : List Reading) : ℚ :=
  maxTime w - minTime w

/-- `weight_goal` (lines 139–141): the goal projection. `g` is the configured
`CONFIG["goal"]` rate; note the factor 12 in the source formula. -/
def weightGoalOf (g size : ℚ) (w : List Reading) : ℚ :=
  weightOrigOf size w + 12 * g / 365 * lossPeriodOf w

/-- Formula from the spec text, for comparison: first trend value plus the
annual goal rate divided by 365 and multiplied by the elapsed-day count. -/
def specGoalProjection (annualRate firstTrend elapsedDays : ℚ) : ℚ :=
  firstTrend + annualRate / 365 * elapsedDays

/-- Error raised by the statistics flow; `emptyWindow` models the
`ValueError` that `idxmin` raises on an empty series (line 122). -/
inductive StatsError where
  | emptyWindow
deriving DecidableEq

/-- The scalar outcome of one run of `bot_stats`, everything the rendered
reply depends on. -/
structure StatsOut where
  minW : ℚ
  maxW : ℚ
  weightOrig : ℚ
  weightNow : ℚ
  weightLoss : ℚ
  lossPeriod : ℚ
  weightGoal : ℚ
  trendStyle : String
  ylim : Option (ℚ × ℚ)
deriving DecidableEq

/-- `bot_stats` (lines 97–182), as a function of the parsed history:
truncate to the requested trailing window, fail like `idxmin` if the window
is empty, otherwise compute min/max, the resampled trend endpoints, the deltas,
the goal projection, the trend-line colour (line 145: green iff
`weight_now <= weight_goal`, else red) and the y-axis limits (lines 153–155:
set only under `if goal:`, to `min(weight_goal, weight_min) - 1` below and
`weight_max + 1` above). -/
def botStats (g size : ℚ) (useGoal : Bool) (lastD : Option ℚ)
    (h : List Reading) : Except StatsError StatsOut :=
  let w := windowOf lastD h
  if w.isEmpty then .error .emptyWindow
  else
    let orig := weightOrigOf size w
    let now := weightNowOf size w
    let goalW := weightGoalOf g size w
    .ok
      { minW := minWeight w
        maxW := maxWeight w
        weightOrig := orig
        weightNow := now
        weightLoss := orig - now
        lossPeriod := lossPeriodOf w
        weightGoal := goalW
        trendStyle := if now ≤ goalW then "g" else "r"
        ylim :=
          if useGoal then some (min goalW (minWeight w) - 1, maxWeight w + 1)
          else none }

/-! ## Concrete fixtures used by witnesses and counterexamples -/

/-- A concrete stand-in for Python's `float` on a few sample strings. -/
def sampleParse (s : String) : Option ℚ :=
  if s = "7e1" then some 70
  else if s = "70" then some 70
  else if s = "200" then some 200
  else none

/-- Two readings, 365 days apart, falling in distinct weekly buckets. -/
def sampleHist : List Reading := [⟨0, 100⟩, ⟨365, 90⟩]

/-- The statistics output on `sampleHist` with goal rate −12, weekly
resampling, no truncation, goal overlay on. -/
def sampleOut : StatsOut :=
  { minW := 90
    maxW := 100
    weightOrig := 100
    weightNow := 90
    weightLoss := 10
    lossPeriod := 365
    weightGoal := -44
    trendStyle := "r"
    ylim := some (-45, 101) }

/-! ## Theorems -/

/-- Helper: folding `store_weight` over a list of readings appends their rows. -/
theorem foldl_store_weight (ws : List (String × String)) (a : List Row) :
    ws.foldl (fun f p => store_weight p.1 p.2 f) a
      = a ++ ws.map fun p => [p.1, p.2] := by
  induction ws generalizing a with
  | nil => simp
  | cons p ps ih =>
    rw [List.foldl_cons, ih, store_weight]
    simp

/-- C1: the input filter accepts a message iff its text parses as a number
strictly between 50 and 150; a rejected message is never appended to the
store and causes no effect. -/
theorem weightFilter_spec (parse : String → Option ℚ) (text now : String)
    (file : List Row) :
    (weightFilter (parse text) = true
        ↔ ∃ w, parse text = some w ∧ 50 < w ∧ w < 150)
      ∧ ((¬ ∃ w, parse text = some w ∧ 50 < w ∧ w < 150)
          → handleMessage parse text now file = (file, [])) := by
  constructor
  · cases hp : parse text with
    | none => simp [weightFilter, hp]
    | some w =>
      simp only [weightFilter, hp, Bool.and_eq_true, decide_eq_true_eq]
      constructor
      · rintro ⟨h1, h2⟩; exact ⟨w, rfl, h1, h2⟩
      · rintro ⟨v, hv, h1, h2⟩
        cases Option.some.inj hv
        exact ⟨h1, h2⟩
  · intro hno
    have hf : weightFilter (parse text) = false := by
      cases hp : parse text with
      | none => simp [weightFilter]
      | some w =>
        simp only [weightFilter, Bool.and_eq_false_iff]
        by_contra hc
        push_neg at hc
        obtain ⟨h1, h2⟩ := hc
        exact hno ⟨w, hp, by simpa using h1, by simpa using h2⟩
    simp [handleMessage, hf]

/-- Witness for C1 at the concrete out-of-range input `"200"`. -/
theorem weightFilter_spec_witness :
    handleMessage sampleParse "200" "2026-01-01" [headerRow]
      = ([headerRow], []) := by
  refine (weightFilter_spec sampleParse "200" "2026-01-01" [headerRow]).2 ?_
  rintro ⟨w, hw, _h1, h2⟩
  have hp : sampleParse "200" = some 200 := by decide
  rw [hp] at hw
  cases Option.some.inj hw
  norm_num at h2

/-- Helper: the statistics flow evaluated on the concrete history
`sampleHist` with goal rate −12, weekly resampling, goal overlay on. -/
theorem sampleStats_eval :
    botStats (-12) 7 true none sampleHist = .ok sampleOut := by
  norm_num [botStats, sampleHist, sampleOut, windowOf, minWeight, maxWeight,
    weightOrigOf, weightNowOf, bucketMeans, groupBuckets, bucketIdx,
    bucketMean, weightSum, lossPeriodOf, maxTime, minTime, weightGoalOf,
    min_def, StatsOut.mk.injEq]

/-- C5: appending N readings to a fresh store and reading them back yields
exactly N data rows, in insertion order, with the timestamp and weight text
of each reading preserved verbatim. -/
theorem store_roundtrip (ws : List (String × String)) :
    readRows (ws.foldl (fun f p => store_weight p.1 p.2 f) [headerRow])
        = (ws.map fun p => [p.1, p.2])
      ∧ (readRows (ws.foldl (fun f p => store_weight p.1 p.2 f) [headerRow])).length
        = ws.length := by
  rw [foldl_store_weight]
  simp [readRows]

/-- C6: startup initialisation writes the header exactly when the store is
absent or empty, and any number of runs on a non-empty store change nothing. -/
theorem initStore_idempotent (rows : List Row) (hne : rows ≠ []) (n : ℕ) :
    initStore none = [headerRow] ∧ initStep [] = [headerRow]
      ∧ initStep^[n] rows = rows := by
  refine ⟨rfl, rfl, ?_⟩
  have hfalse : rows.isEmpty = false := by
    cases rows with
    | nil => exact absurd rfl hne
    | cons a l => rfl
  have hfix : initStep rows = rows := by
    simp [initStep, initStore, hfalse]
  exact Function.iterate_fixed hfix n

/-- Witness for C6: three runs on a store holding just the header row. -/
theorem initStore_idempotent_witness :
    initStore none = [headerRow] ∧ initStep [] = [headerRow]
      ∧ initStep^[3] [headerRow] = [headerRow] :=
  initStore_idempotent [headerRow] (by simp) 3

/-- C10: an accepted message appends a row holding the current timestamp and
the raw message text verbatim as the weight field. -/
theorem rawText_stored (parse : String → Option ℚ) (text now : String)
    (file : List Row) (hacc : weightFilter (parse text) = true) :
    (handleMessage parse text now file).1 = file ++ [[now, text]] := by
  simp [handleMessage, hacc, bot_weight, store_weight]

/-- Witness for C10 at the scientific-notation input `"7e1"` (value 70). -/
theorem rawText_stored_witness :
    (handleMessage sampleParse "7e1" "2026-01-02" [headerRow]).1
      = [headerRow] ++ [["2026-01-02", "7e1"]] :=
  rawText_stored sampleParse "7e1" "2026-01-02" [headerRow] (by decide)

/-- C8: when handling an update raises an error, the error handler logs the
update with the error and the process keeps running, but no text message at
all reaches the user — the failure-notice coroutine of line 80 is built
without `await` and never executes. -/
theorem errorHandler_behaviour (u err : String) :
    (processUpdate (some u) (.error err)).2 = ProcState.running
      ∧ Effect.logError (some u) err ∈ (processUpdate (some u) (.error err)).1
      ∧ ∀ t, Effect.sendText t ∉ (processUpdate (some u) (.error err)).1 := by
  refine ⟨rfl, ?_, ?_⟩
  · simp [processUpdate, bot_error, unawaited]
  · intro t ht
    simp [processUpdate, bot_error, unawaited] at ht

/-- C4: a store holding only the header row parses to zero readings, and on
zero readings the statistics flow fails with the empty-window error instead
of producing any output (hence no chart is rendered or sent). -/
theorem emptyStore_stats (g size : ℚ) (useGoal : Bool) (lastD : Option ℚ) :
    readRows [headerRow] = []
      ∧ botStats g size useGoal lastD [] = .error .emptyWindow := by
  refine ⟨rfl, ?_⟩
  cases lastD <;> rfl

/-- C3: on a history with exactly one reading the statistics flow succeeds
deterministically: the trend delta is 0 over 0 elapsed days and the goal
projection equals the current weight. -/
theorem singleton_stats (g size : ℚ) (useGoal : Bool) (lastD : Option ℚ)
    (t w : ℚ) (hd : ∀ d ∈ lastD, 0 ≤ d) :
    ∃ s, botStats g size useGoal lastD [⟨t, w⟩] = .ok s
      ∧ s.weightLoss = 0 ∧ s.lossPeriod = 0 ∧ s.weightGoal = w := by
  have hwin : windowOf lastD [⟨t, w⟩] = [⟨t, w⟩] := by
    cases lastD with
    | none => rfl
    | some d =>
      have hd0 : (0 : ℚ) ≤ d := hd d rfl
      have hc : maxTime [⟨t, w⟩] - d ≤ t := by
        simp only [maxTime, List.foldl_nil]
        linarith
      simp [windowOf, List.filter, hc]
  simp only [botStats, hwin]
  refine ⟨_, rfl, ?_, ?_, ?_⟩
  · simp [weightOrigOf, weightNowOf, bucketMeans, groupBuckets, bucketMean,
      weightSum]
  · simp [lossPeriodOf, maxTime, minTime]
  · simp [weightGoalOf, weightOrigOf, bucketMeans, groupBuckets, bucketMean,
      weightSum, lossPeriodOf, maxTime, minTime]

/-- Witness for C3: one reading of 80 at day 0, window of 100 days. -/
theorem singleton_stats_witness :
    ∃ s, botStats 5 7 false (some 100) [⟨0, 80⟩] = .ok s
      ∧ s.weightLoss = 0 ∧ s.lossPeriod = 0 ∧ s.weightGoal = 80 :=
  singleton_stats 5 7 false (some 100) 0 80 (by
    intro d hd
    have h1 : (100 : ℚ) = d := Option.some.inj (Option.mem_def.mp hd)
    rw [← h1]
    norm_num)

/-- C2 counterexample: with goal rate −12 on `sampleHist` the code computes a
goal projection of −44, while the spec formula (annual rate divided by 365
times elapsed days, added to the first trend value) yields 88. -/
theorem goalProjection_counterexample :
    (botStats (-12) 7 true none sampleHist).toOption.map StatsOut.weightGoal
        = some (-44)
      ∧ (-44 : ℚ) ≠ specGoalProjection (-12)
          (weightOrigOf 7 (windowOf none sampleHist))
          (lossPeriodOf (windowOf none sampleHist)) := by
  constructor
  · rw [sampleStats_eval]; rfl
  · norm_num [specGoalProjection, sampleHist, windowOf, weightOrigOf,
      bucketMeans, groupBuckets, bucketIdx, bucketMean, weightSum,
      lossPeriodOf, maxTime, minTime]

/-- C2 (amended): the goal projection equals the first resampled bucket mean
plus the annualised rate — the configured rate times 12 — divided by 365 and
multiplied by the elapsed-day count of the window. -/
theorem goalProjection_amended (g size : ℚ) (useGoal : Bool) (lastD : Option ℚ)
    (h : List Reading) (s : StatsOut)
    (hs : botStats g size useGoal lastD h = .ok s) :
    s.weightGoal = specGoalProjection (12 * g) s.weightOrig s.lossPeriod := by
  simp only [botStats] at hs
  split at hs
  · simp at hs
  · cases Except.ok.inj hs
    rfl

/-- Witness for C2 (amended) on the concrete history `sampleHist`. -/
theorem goalProjection_amended_witness :
    sampleOut.weightGoal
      = specGoalProjection (12 * (-12)) sampleOut.weightOrig sampleOut.lossPeriod :=
  goalProjection_amended (-12) 7 true none sampleHist sampleOut sampleStats_eval

/-- C7: the trend line is drawn green exactly when the last resampled bucket
mean is at or below the goal projection, and red exactly otherwise. -/
theorem trendColor_spec (g size : ℚ) (useGoal : Bool) (lastD : Option ℚ)
    (h : List Reading) (s : StatsOut)
    (hs : botStats g size useGoal lastD h = .ok s) :
    (s.trendStyle = "g" ↔ s.weightNow ≤ s.weightGoal)
      ∧ (s.trendStyle = "r" ↔ ¬ s.weightNow ≤ s.weightGoal) := by
  simp only [botStats] at hs
  split at hs
  · simp at hs
  · cases Except.ok.inj hs
    dsimp only
    by_cases hc : weightNowOf size (windowOf lastD h)
        ≤ weightGoalOf g size (windowOf lastD h)
    · rw [if_pos hc]
      exact ⟨⟨fun _ => hc, fun _ => rfl⟩,
        ⟨fun h2 => absurd h2 (by decide), fun h2 => absurd hc h2⟩⟩
    · rw [if_neg hc]
      exact ⟨⟨fun h2 => absurd h2 (by decide), fun h2 => absurd h2 hc⟩,
        ⟨fun _ => hc, fun _ => rfl⟩⟩

/-- Witness for C7 on the concrete history `sampleHist` (red case). -/
theorem trendColor_spec_witness :
    (sampleOut.trendStyle = "g" ↔ sampleOut.weightNow ≤ sampleOut.weightGoal)
      ∧ (sampleOut.trendStyle = "r" ↔ ¬ sampleOut.weightNow ≤ sampleOut.weightGoal) :=
  trendColor_spec (-12) 7 true none sampleHist sampleOut sampleStats_eval

/-- C9 counterexample: on `sampleHist` with goal overlay the code sets the
y-limits to (−45, 101); the lower bound is not one unit below the window
minimum (which would be 89) because the goal projection is smaller. -/
theorem ylim_counterexample :
    (botStats (-12) 7 true none sampleHist).toOption.map StatsOut.ylim
        = some (some (-45, 101))
      ∧ (-45 : ℚ) ≠ minWeight (windowOf none sampleHist) - 1 := by
  constructor
  · rw [sampleStats_eval]; rfl
  · norm_num [sampleHist, windowOf, minWeight]

/-- C9 (amended): with the goal overlay the y-limits are one unit below
`min(goal projection, window minimum)` and one unit above the window maximum;
without the overlay no explicit y-limits are set. -/
theorem ylim_amended (g size : ℚ) (useGoal : Bool) (lastD : Option ℚ)
    (h : List Reading) (s : StatsOut)
    (hs : botStats g size useGoal lastD h = .ok s) :
    s.ylim = if useGoal
      then some (min s.weightGoal s.minW - 1, s.maxW + 1)
      else none := by
  simp only [botStats] at hs
  split at hs
  · simp at hs
  · cases Except.ok.inj hs
    rfl

/-- Witness for C9 (amended) on the concrete history `sampleHist`. -/
theorem ylim_amended_witness :
    sampleOut.ylim = if true
      then some (min sampleOut.weightGoal sampleOut.minW - 1, sampleOut.maxW + 1)
      else none :=
  ylim_amended (-12) 7 true none sampleHist sampleOut sampleStats_eval
